import Mathlib

/-!
Verification of the demo-builder core (an Express wrapper providing a keyed
data store, a loopback client, route application and a sqlite attachment).

The definitions below are a shallow embedding of `src/internal.ts`:
JavaScript values are modelled by `Value`, the possibly-`undefined` slot of a
JS object property by `Option Value`, the process-wide `data` object by an
association list that distinguishes an absent key from a key whose stored
value is `undefined`, promises by `Except` results, and the express response
object by the record of calls made on it.
-/

set_option autoImplicit false

namespace DemoBuilder

/-- JS values as stored in the data object and produced by handlers.
`undefined` is not a `Value`; it is modelled as `Option.none` at use sites. -/
inductive Value where
  | vStr  : String → Value
  | vNum  : Int → Value
  | vBool : Bool → Value
  | vNull : Value
  | vObj  : List (String × Value) → Value

/-- The `data` object of the config: an association list from property name to
the stored slot. A pair `(k, none)` models a key that is a member of the
object but holds `undefined` — distinct from `k` being absent entirely. -/
abbrev Store := List (String × Option Value)

/-- The read `data[key]` performed by `data_fn` (line 183 of internal.ts):
an absent key and a present key holding `undefined` both read as `undefined`. -/
def readKey (store : Store) (k : String) : Option Value :=
  match store.lookup k with
  | none => none
  | some slot => slot

/-- The write `data[key] = v`: property assignment on a JS object, modelled by
shadowing in the association list. -/
def setKey (store : Store) (k : String) (v : Option Value) : Store :=
  (k, v) :: store

/-- What the `update` closure passed to `data_fn` returns: either a plain
value (possibly `undefined`), or a `Promise` that resolves to a value
(possibly `undefined`) or rejects with an error string. -/
inductive UpdOut where
  | val     : Option Value → UpdOut
  | promise : Except String (Option Value) → UpdOut

/-- What the caller of `data_fn` receives: a value returned synchronously, or
a pending result that fulfills with the stored value or rejects. -/
inductive DataResult where
  | sync  : Option Value → DataResult
  | async : Except String (Option Value) → DataResult

/-- The default `data_fn` installed by `apply` (internal.ts lines 182-201):

```
let val = data[key]
if (typeof val === "undefined") { return data[key] = def }
if (closure) {
  const out = closure(val)
  if (out instanceof Promise) {
    return new Promise(async function (ok, err) {
      try { const val = await out; ok(data[key] = val) }
      catch (e) { err(e?.toString()) }
    })
  }
  data[key] = out
  return out
}
return val
```

The returned pair is the store after the call (for a promise, after it has
settled) together with the result the caller observes. On rejection the store
write `data[key] = val` is never executed. -/
def data_fn (store : Store) (k : String) (dflt : Option Value)
    (closure : Option (Value → UpdOut)) : Store × DataResult :=
  match readKey store k with
  | none => (setKey store k dflt, .sync dflt)
  | some val =>
    match closure with
    | none => (store, .sync (some val))
    | some f =>
      match f val with
      | .val out => (setKey store k out, .sync out)
      | .promise (Except.ok v) => (setKey store k v, .async (Except.ok v))
      | .promise (Except.error e) => (store, .async (Except.error e))

/-- The example update closure `v => v + 1` of the spec, applied to a stored
number. The non-numeric branch is never reached under the hypotheses of the
theorems using it (the key is assumed to hold a number). -/
def addOneClosure : Value → UpdOut
  | .vNum n => .val (some (.vNum (n + 1)))
  | v => .val (some v)

/-! ## Route application (`apply_route`, internal.ts lines 160-173) -/

/-- What awaiting the user handler produces: a resolved value (possibly
`undefined`) or a thrown/rejected failure, already in its string form
(JavaScript `"" + e`). -/
inductive HandlerOutcome where
  | ok     : Option Value → HandlerOutcome
  | thrown : String → HandlerOutcome

/-- The body-sending call made on the express response object, if any.
`endStr` is `res.end(resp)` (verbatim string), `jsonVal` is `res.json(resp)`
(JSON serialization), `sendStr` is `res.send(body)`. -/
inductive SendAction where
  | noSend  : SendAction
  | endStr  : String → SendAction
  | jsonVal : Value → SendAction
  | sendStr : String → SendAction

/-- The observable effect of the wrapped handler on the response: the status
it leaves (express default 200 unless `res.status` is called), the
body-sending call, and what was logged via `console.error`. -/
structure RouteResponse where
  status : Nat
  send   : SendAction
  logged : Option String

/-- `typeof resp == 'string'` on a defined value. -/
def isString : Value → Bool
  | .vStr _ => true
  | _ => false

/-- The result normalization of `apply_route`:
`typeof resp !== "undefined" && res[typeof resp == 'string' ? "end" : "json"](resp)`
and the `catch` branch
`console.error(e); res.status(500); res.send("Error! " + e)`. -/
def apply_route_result : HandlerOutcome → RouteResponse
  | .ok none => ⟨200, .noSend, none⟩
  | .ok (some (.vStr s)) => ⟨200, .endStr s, none⟩
  | .ok (some v) => ⟨200, .jsonVal v, none⟩
  | .thrown e => ⟨500, .sendStr ("Error! " ++ e), some e⟩

/-- The wrapped handler as the express server sees it. Its body is wrapped in
`try ... catch`, so a thrown handler failure is converted into the 500
response instead of propagating: the wrapper always resolves (`Except.ok`),
for a thrown outcome as much as for a normal one. -/
def apply_route_wrapped (h : HandlerOutcome) : Except String RouteResponse :=
  Except.ok (apply_route_result h)

/-- A body-sending call was made on the response. -/
def sendsResponse (r : RouteResponse) : Prop :=
  r.send ≠ SendAction.noSend

/-! ## Startup (`apply`, internal.ts lines 178-236, and `sqlite`, 286-307) -/

/-- HTTP method keys of a `RouteConfig`. -/
inductive Method where
  | get | post | put | patch | delete
deriving DecidableEq

/-- The `db` field of the config. -/
structure DbCfg where
  url : String
  migrations : Option String

/-- The parts of the config that startup ordering depends on. Routes are the
iteration order of the route map: each path with the methods its
`RouteConfig` defines. -/
structure ApplyCfg where
  port : Option Nat
  db : Option DbCfg
  routes : List (String × List Method)

/-- Externally observable startup steps of `apply`, in execution order. -/
inductive StartEvent where
  | dbOpen : StartEvent
  | migrate : StartEvent
  | registerRoute : String → Method → StartEvent
  | listening : StartEvent
deriving DecidableEq

/-- The route registrations performed by the routing block:
`for (const path in routes) for (const _method in route) app[method](path, ...)`. -/
def registrations (routes : List (String × List Method)) : List StartEvent :=
  routes.flatMap fun p => p.2.map fun m => .registerRoute p.1 m

/-- The `sqlite` helper: `open` the database, then, when a migrations path is
configured, `await db.migrate(...)`. Either step failing rejects the whole
call. `openR` and `migrateR` stand for the outcomes of the external sqlite
collaborator. -/
def sqlite_events (dbc : DbCfg) (openR migrateR : Except String Unit) :
    Except String (List StartEvent) :=
  match openR with
  | .error e => .error e
  | .ok _ =>
    match dbc.migrations with
    | none => .ok [.dbOpen]
    | some _ =>
      match migrateR with
      | .error e => .error e
      | .ok _ => .ok [.dbOpen, .migrate]

/-- The startup sequence of `apply`: the database block
(`if (cfg.db?.url) app.use(await sqlite(cfg.db))`, with JS truthiness on the
url string) runs before the routing block registers any route, and
`app.listen` — whose callback reports the server started — runs last. A
rejection of the database block rejects `apply` itself: no route is
registered and listening is never reached. -/
def apply_events (cfg : ApplyCfg) (openR migrateR : Except String Unit) :
    Except String (List StartEvent) :=
  match cfg.db with
  | some dbc =>
    if dbc.url ≠ "" then
      match sqlite_events dbc openR migrateR with
      | .error e => .error e
      | .ok dbEvs => .ok (dbEvs ++ registrations cfg.routes ++ [.listening])
    else
      .ok (registrations cfg.routes ++ [.listening])
  | none => .ok (registrations cfg.routes ++ [.listening])

/-! ## Loopback client (`LOOPBACK`, `handle_body`, internal.ts lines 202-211
and 238-284) -/

/-- The implementation currently bound to `LOOPBACK.fetch`. `direct` is the
initial binding `(path, init) => fetch(path, init)`; `viaLoopback port` is
the implementation installed by the init block of `apply`, which targets
`"http://localhost:" + port + path` and sets the outgoing `user-agent` header
to `this?.headers?.["user-agent"] || "Loopback"`. -/
inductive FetchImpl where
  | direct : FetchImpl
  | viaLoopback : Nat → FetchImpl

/-- The initial `LOOPBACK.fetch` (internal.ts line 251). -/
def loopbackFetchInitial : FetchImpl := .direct

/-- The `LOOPBACK.fetch` after the init block of `apply` has run with the
given resolved port (internal.ts lines 202-211). -/
def loopbackFetchAfterApply (port : Nat) : FetchImpl := .viaLoopback port

/-- The outgoing HTTP call a fetch implementation issues: the URL passed to
the global `fetch`, and the `user-agent` header the implementation itself
puts on the request (`none` when it adds no identifying header of its own).
`ctxUA` is `this?.headers?.["user-agent"]`: `none` when the call is made on
the top-level `LOOPBACK` object, outside any request context. -/
structure IssuedCall where
  url : String
  userAgent : Option String
deriving DecidableEq

/-- What each `LOOPBACK.fetch` implementation issues for a call with target
`path` in context `ctxUA`. -/
def issue (impl : FetchImpl) (ctxUA : Option String) (path : String) : IssuedCall :=
  match impl with
  | .direct => ⟨path, none⟩
  | .viaLoopback port =>
    ⟨"http://localhost:" ++ toString port ++ path, some (ctxUA.getD "Loopback")⟩

/-- An HTTP response as observed by `handle_body`: status code, the
`content-type` header (absent reads as `""` via `|| ""`), and the raw body. -/
structure HttpResponse where
  status : Nat
  contentType : Option String
  body : String

/-- List-level substring test: `pat` occurs contiguously in `s`. -/
def listIncl (pat : List Char) : List Char → Bool
  | [] => pat.isEmpty
  | c :: rest => pat.isPrefixOf (c :: rest) || listIncl pat rest

/-- JavaScript `s.includes(pat)`. -/
def strIncludes (s pat : String) : Bool :=
  listIncl pat.data s.data

/-- The decoded body handed to the caller of a loopback method: `resp.json()`
or `resp.text()` applied to the raw body. -/
inductive Decoded where
  | json : String → Decoded
  | text : String → Decoded
deriving DecidableEq

/-- `const typ = resp.headers.get("content-type") || ""`. -/
def contentTypeOf (resp : HttpResponse) : String :=
  resp.contentType.getD ""

/-- `handle_body` (internal.ts lines 238-245): decode as JSON when the
`content-type` header contains `"application/json"`, else as text. The
status code is never inspected. -/
def handle_body (resp : HttpResponse) : Decoded :=
  if strIncludes (contentTypeOf resp) "application/json" then .json resp.body
  else .text resp.body

/-- A loopback convenience call (`get`/`post`/`put`/`patch`/`delete`): each
one runs `this.fetch(path, ...).then(handle_body)`. `fetched` is the outcome
of the underlying fetch: `Except.error` only for a transport-level failure;
any HTTP response, whatever its status, arrives as `Except.ok`. The method
only selects the request shape; the response handling is shared. -/
def loopback_call (m : Method) (fetched : Except String HttpResponse) :
    Except String Decoded :=
  match m, fetched with
  | _, .ok resp => .ok (handle_body resp)
  | _, .error e => .error e

/-! ## Database attachment (`sqlite.dump_table`, internal.ts lines 295-302) -/

/-- The SQL text built by `dump_table`:
`let sql = 'SELECT * FROM ' + name; if (offset) sql += ' OFFSET ' + offset;
if (limit) sql += ' LIMIT ' + limit` — with JS truthiness on the numbers
(`0` and an omitted argument both skip the clause). -/
def dump_table_sql (name : String) (limit offs : Option Int) : String :=
  let sql0 := "SELECT * FROM " ++ name
  let sql1 :=
    match offs with
    | some o => if o ≠ 0 then sql0 ++ " OFFSET " ++ toString o else sql0
    | none => sql0
  match limit with
  | some l => if l ≠ 0 then sql1 ++ " LIMIT " ++ toString l else sql1
  | none => sql1

/-! ## Theorems for the data store claims -/

/-- C1: a first `get_or_put` on an unseen key `k` with default `d` stores `d`
under `k` and returns `d`; a subsequent call for `k` with no update — whatever
default it passes, in particular none — returns `d` again and leaves the
store unchanged: the default is applied at most once per key, and the value
set by get-or-default remains until explicitly updated. -/
theorem c1_default_applied_once (store : Store) (k : String) (d : Value)
    (h : store.lookup k = none) :
    data_fn store k (some d) none = (setKey store k (some d), .sync (some d))
    ∧ ∀ dflt2 : Option Value,
        data_fn (setKey store k (some d)) k dflt2 none
          = (setKey store k (some d), .sync (some d)) := by
  constructor
  · simp [data_fn, readKey, h]
  · intro dflt2
    simp [data_fn, readKey, setKey, List.lookup]

/-- Witness for C1 at the empty store, key `"k"`, default `7`. -/
theorem c1_witness :
    ([] : Store).lookup "k" = none
    ∧ data_fn [] "k" (some (.vNum 7)) none
        = ([("k", some (.vNum 7))], .sync (some (.vNum 7)))
    ∧ data_fn [("k", some (.vNum 7))] "k" none none
        = ([("k", some (.vNum 7))], .sync (some (.vNum 7))) :=
  ⟨rfl, (c1_default_applied_once [] "k" (.vNum 7) rfl).1,
    (c1_default_applied_once [] "k" (.vNum 7) rfl).2 none⟩

/-- C2: when the key holds a value and the update closure returns a promise
that fails, the store is left unchanged (no partial write) and the caller of
`get_or_put` observes a failed result. -/
theorem c2_async_failure_leaves_store (store : Store) (k : String) (v : Value)
    (dflt : Option Value) (f : Value → UpdOut) (e : String)
    (hv : readKey store k = some v)
    (hf : f v = .promise (Except.error e)) :
    data_fn store k dflt (some f) = (store, .async (Except.error e)) := by
  simp [data_fn, hv, hf]

/-- Witness for C2: a store holding `1` at `"k"` and an update that rejects
with `"boom"`. -/
theorem c2_witness :
    readKey [("k", some (.vNum 1))] "k" = some (.vNum 1)
    ∧ data_fn [("k", some (.vNum 1))] "k" none
        (some fun _ => .promise (Except.error "boom"))
      = ([("k", some (.vNum 1))], .async (Except.error "boom")) :=
  ⟨rfl, c2_async_failure_leaves_store [("k", some (.vNum 1))] "k" (.vNum 1) none
    (fun _ => .promise (Except.error "boom")) "boom" rfl rfl⟩

/-- C8: on a key holding the number `n`, `get_or_put(k, d1, v => v + 1)` with
a synchronous closure returns `n + 1` and stores `n + 1` under `k`, and a
later plain read of `k` observes `n + 1`. -/
theorem c8_sync_update (store : Store) (k : String) (n : Int) (dflt : Option Value)
    (h : readKey store k = some (.vNum n)) :
    data_fn store k dflt (some addOneClosure)
      = (setKey store k (some (.vNum (n + 1))), .sync (some (.vNum (n + 1))))
    ∧ data_fn (setKey store k (some (.vNum (n + 1)))) k none none
      = (setKey store k (some (.vNum (n + 1))), .sync (some (.vNum (n + 1)))) := by
  constructor
  · simp [data_fn, h, addOneClosure]
  · simp [data_fn, readKey, setKey, List.lookup]

/-- Witness for C8: a store holding `5` at `"c"`; the update returns and
persists `6`. -/
theorem c8_witness :
    readKey [("c", some (.vNum 5))] "c" = some (.vNum 5)
    ∧ data_fn [("c", some (.vNum 5))] "c" none (some addOneClosure)
      = ([("c", some (.vNum 6)), ("c", some (.vNum 5))], .sync (some (.vNum 6))) :=
  ⟨rfl, (c8_sync_update [("c", some (.vNum 5))] "c" 5 none rfl).1⟩

/-- C10: presence is decided by the stored value being `undefined`, not by
key membership. A key `k` that is a member of the data object but holds
`undefined` gets the default re-applied: `get_or_put(k, d)` stores and
returns `d`. Moreover `get_or_put(k)` with the default omitted on an absent
key does initialize the key — it becomes a member holding `undefined`. -/
theorem c10_presence_by_undefined (store : Store) (k : String) (d : Value)
    (_hmem : k ∈ store.map Prod.fst)
    (hval : readKey store k = none) :
    data_fn store k (some d) none = (setKey store k (some d), .sync (some d))
    ∧ data_fn [] k none none = ([(k, none)], .sync none) := by
  constructor
  · simp [data_fn, hval]
  · simp [data_fn, readKey, setKey, List.lookup]

/-- Witness for C10: the key `"k"` is a member holding `undefined` (as left
by a defaultless `get_or_put`), and a later call with default `3` re-applies
the default. -/
theorem c10_witness :
    ("k" ∈ ([("k", (none : Option Value))] : Store).map Prod.fst)
    ∧ readKey [("k", none)] "k" = none
    ∧ data_fn [("k", none)] "k" (some (.vNum 3)) none
      = ([("k", some (.vNum 3)), ("k", none)], .sync (some (.vNum 3))) :=
  ⟨by simp, rfl,
    (c10_presence_by_undefined [("k", none)] "k" (.vNum 3) (by simp) rfl).1⟩

/-! ## Theorems for the route application and startup claims -/

/-- C3 counterexample: an `undefined` handler result does NOT cause an empty
response to be sent — the wrapper makes no body-sending call at all (the
`typeof resp !== "undefined" && ...` conjunction short-circuits, and neither
`res.end` nor `res.json` runs). -/
theorem c3_counterexample :
    ¬ sendsResponse (apply_route_result (.ok none)) := by
  simp [apply_route_result, sendsResponse]

/-- C3 amended: an `undefined` result causes no body-sending call by the
wrapper (the response is left untouched); a string result is sent verbatim
via `res.end`; any other defined value is sent with JSON serialization via
`res.json`. -/
theorem c3_result_normalization :
    (apply_route_result (.ok none)).send = SendAction.noSend
    ∧ (∀ s, apply_route_result (.ok (some (.vStr s))) = ⟨200, .endStr s, none⟩)
    ∧ (∀ v, isString v = false →
        apply_route_result (.ok (some v)) = ⟨200, .jsonVal v, none⟩) := by
  refine ⟨rfl, fun s => rfl, fun v hv => ?_⟩
  cases v <;> simp_all [isString, apply_route_result]

/-- Witness for the amended C3 at the non-string value `1`. -/
theorem c3_witness :
    isString (.vNum 1) = false
    ∧ apply_route_result (.ok (some (.vNum 1))) = ⟨200, .jsonVal (.vNum 1), none⟩ :=
  ⟨rfl, c3_result_normalization.2.2 (.vNum 1) rfl⟩

/-- C4: a handler failure is logged (`console.error(e)`), answered with
status 500 and the body `"Error! " + e` (a human-readable description of the
failure), and the failure never propagates out of the wrapped handler: for
every handler outcome the wrapper resolves normally, so the process keeps
serving subsequent requests. -/
theorem c4_handler_failure_contained (e : String) :
    apply_route_wrapped (.thrown e)
      = Except.ok ⟨500, .sendStr ("Error! " ++ e), some e⟩
    ∧ ∀ h : HandlerOutcome, ∃ r : RouteResponse, apply_route_wrapped h = Except.ok r :=
  ⟨rfl, fun h => ⟨apply_route_result h, rfl⟩⟩

/-- C5: with a database configured (a `db` entry whose url is truthy),
database opening and all migrations complete before any route is registered,
and the listening event comes only after every registration; when opening or
migrating fails, `apply` rejects — no event list is produced, so the server
never reaches the listening state. -/
theorem c5_startup_ordering (cfg : ApplyCfg) (dbc : DbCfg)
    (openR migrateR : Except String Unit)
    (hdb : cfg.db = some dbc) (hurl : dbc.url ≠ "") :
    (openR = Except.ok () →
      (dbc.migrations = none →
        apply_events cfg openR migrateR
          = .ok ([.dbOpen] ++ registrations cfg.routes ++ [.listening]))
      ∧ (∀ m, dbc.migrations = some m → migrateR = Except.ok () →
        apply_events cfg openR migrateR
          = .ok ([.dbOpen, .migrate] ++ registrations cfg.routes ++ [.listening])))
    ∧ (∀ e, openR = Except.error e →
        apply_events cfg openR migrateR = Except.error e)
    ∧ (∀ e m, dbc.migrations = some m → openR = Except.ok () →
        migrateR = Except.error e →
        apply_events cfg openR migrateR = Except.error e) := by
  refine ⟨fun hok => ⟨fun hmig => ?_, fun m hmig hmok => ?_⟩,
    fun e he => ?_, fun e m hmig hok hme => ?_⟩ <;>
    simp [apply_events, sqlite_events, hdb, hurl, *]

/-- Witness for C5: the config of `src/main.ts` (port 8000, a sqlite file
with a migrations folder, one GET route), with both external steps
succeeding: the database events precede the registration, and listening is
last. -/
theorem c5_witness :
    (ApplyCfg.mk (some 8000) (some ⟨"./db.sqlite", some "src/migrations"⟩)
        [("/hello", [Method.get])]).db
      = some ⟨"./db.sqlite", some "src/migrations"⟩
    ∧ ("./db.sqlite" : String) ≠ ""
    ∧ apply_events
        ⟨some 8000, some ⟨"./db.sqlite", some "src/migrations"⟩,
          [("/hello", [Method.get])]⟩
        (Except.ok ()) (Except.ok ())
      = Except.ok [.dbOpen, .migrate, .registerRoute "/hello" Method.get, .listening] := by
  refine ⟨rfl, by decide, ?_⟩
  have h := ((c5_startup_ordering
    ⟨some 8000, some ⟨"./db.sqlite", some "src/migrations"⟩, [("/hello", [Method.get])]⟩
    ⟨"./db.sqlite", some "src/migrations"⟩ (Except.ok ()) (Except.ok ())
    rfl (by decide)).1 rfl).2 "src/migrations" rfl rfl
  exact h.trans rfl

/-! ## Theorems for the loopback claims -/

/-- C6 counterexample: after `apply` has run (resolved port 8000), a call
through the top-level `LOOPBACK` outside any request context does not use the
supplied path directly with no identity substitution: the installed fetch
targets the service's own address and substitutes the fixed `"Loopback"`
user-agent. -/
theorem c6_counterexample :
    issue (loopbackFetchAfterApply 8000) none "/x" ≠ ⟨"/x", none⟩ := by
  decide

/-- C6 amended: the initial top-level `LOOPBACK.fetch` issues calls with the
externally-supplied path/URL directly and no identity substitution; once
`apply`'s init block has replaced it, a call outside any request context goes
to `http://localhost:<port><path>` and carries the fixed fallback identity
`"Loopback"`. -/
theorem c6_loopback_fetch (port : Nat) (path : String) :
    issue loopbackFetchInitial none path = ⟨path, none⟩
    ∧ issue (loopbackFetchAfterApply port) none path
      = ⟨"http://localhost:" ++ toString port ++ path, some "Loopback"⟩ :=
  ⟨rfl, rfl⟩

/-- C7: every loopback convenience call hands the caller the decoded body:
a transport-successful fetch yields `Except.ok` of the decoded body whatever
the HTTP status (the status is never inspected, so changing it never changes
the decoding), the body is decoded as JSON exactly when the content-type
contains `"application/json"` and as plain text otherwise, and only a
transport-level failure surfaces as a failure. -/
theorem c7_loopback_decoding (m : Method) (resp : HttpResponse) (n : Nat) (e : String) :
    loopback_call m (Except.ok resp) = Except.ok (handle_body resp)
    ∧ handle_body ⟨n, resp.contentType, resp.body⟩ = handle_body resp
    ∧ (handle_body resp = .json resp.body
        ↔ strIncludes (contentTypeOf resp) "application/json" = true)
    ∧ (handle_body resp = .text resp.body
        ↔ strIncludes (contentTypeOf resp) "application/json" = false)
    ∧ loopback_call m (Except.error e) = Except.error e := by
  refine ⟨by cases m <;> rfl, rfl, ?_, ?_, by cases m <;> rfl⟩ <;>
    cases hb : strIncludes (contentTypeOf resp) "application/json" <;>
      simp [handle_body, hb]

/-! ## Theorem for the dump_table claim -/

/-- C9: for a positive limit `L` and positive offset `O`, `dump_table` emits
`SELECT * FROM <name> OFFSET <O> LIMIT <L>` — the OFFSET clause placed before
the LIMIT clause. -/
theorem c9_dump_table_sql (name : String) (L O : Int) (hL : 0 < L) (hO : 0 < O) :
    dump_table_sql name (some L) (some O)
      = "SELECT * FROM " ++ name ++ " OFFSET " ++ toString O
          ++ " LIMIT " ++ toString L := by
  have hL' : L ≠ 0 := ne_of_gt hL
  have hO' : O ≠ 0 := ne_of_gt hO
  simp [dump_table_sql, hL', hO']

/-- Witness for C9: `dump_table("T", 10, 5)` issues
`SELECT * FROM T OFFSET 5 LIMIT 10`. -/
theorem c9_witness :
    (0 : Int) < 10 ∧ (0 : Int) < 5
    ∧ dump_table_sql "T" (some 10) (some 5) = "SELECT * FROM T OFFSET 5 LIMIT 10" :=
  ⟨by decide, by decide,
    (c9_dump_table_sql "T" 10 5 (by decide) (by decide)).trans rfl⟩

end DemoBuilder
